import Mathlib

/-!
Verification development for the `ynabctl` command-line client.

The Go sources are embedded shallowly:

* JSON response bodies are modelled by the inductive `Ynab.Json`; a body that
  is not valid JSON is represented by `none` in the `parsed` field of
  `Ynab.HTTPResponse`.  The behaviour of Go's `encoding/json.Unmarshal` on the
  concrete response structs of `internal/client` is embedded by the
  `unmarshal…` functions (missing object keys yield the Go zero value, `null`
  leaves the zero value in place, a type mismatch is an unmarshal error,
  unknown keys are ignored, and a duplicated key keeps the last occurrence).
* Go's `time.Format` reference layouts used by the sources (`"2006-01-02"`
  and `"2006-01-01"`) are embedded by `Ynab.goFormat`, which interprets the
  reference-time tokens `2006` (year), `01` (month) and `02` (day of month).
* IEEE-754 binary64 arithmetic used by the currency conversions is embedded
  exactly: a floating-point value is an unreduced fraction `Ynab.Frac`, and
  `Ynab.fpRound64` is round-to-nearest, ties-to-even at 53 significant bits
  (overflow and subnormals are outside the range exercised here and are not
  modelled).  `Frac.toRat` maps a fraction to the rational it denotes.
* HTTP transport is modelled by a mocked response (`Ynab.HTTPResponse`);
  every client operation consumes the response the transport returned for
  its single request.
-/

namespace Ynab

/-- JSON values as produced by parsing a response body.  Numbers are
integers; no field decoded by the client is a JSON fraction. -/
inductive Json where
  | null
  | bool (b : Bool)
  | num (n : Int)
  | str (s : String)
  | arr (elems : List Json)
  | obj (fields : List (String × Json))
  deriving Repr, Inhabited

/-- Object lookup with Go `encoding/json` semantics: the last occurrence of
a duplicated key wins. -/
def jlookup (fields : List (String × Json)) (k : String) : Option Json :=
  fields.foldl (fun acc kv => if kv.1 = k then some kv.2 else acc) none

/-- Unmarshal a `string` struct field: a missing key or `null` leaves the Go
zero value `""`; a non-string value is an unmarshal error. -/
def goStr (fields : List (String × Json)) (k : String) : Option String :=
  match jlookup fields k with
  | none => some ""
  | some .null => some ""
  | some (.str s) => some s
  | some _ => none

/-- Unmarshal an integer struct field (`int`, `int64`). -/
def goInt (fields : List (String × Json)) (k : String) : Option Int :=
  match jlookup fields k with
  | none => some 0
  | some .null => some 0
  | some (.num n) => some n
  | some _ => none

/-- Unmarshal a `bool` struct field. -/
def goBool (fields : List (String × Json)) (k : String) : Option Bool :=
  match jlookup fields k with
  | none => some false
  | some .null => some false
  | some (.bool b) => some b
  | some _ => none

/-- Unmarshal a pointer-to-struct field: a missing key or `null` leaves the
nil pointer; otherwise the pointed-to struct is unmarshalled by `f`. -/
def goPtr {α : Type} (fields : List (String × Json)) (k : String)
    (f : Json → Option α) : Option (Option α) :=
  match jlookup fields k with
  | none => some none
  | some .null => some none
  | some j => (f j).map some

/-- Unmarshal a slice field: a missing key or `null` leaves the nil slice,
an array unmarshals element-wise, anything else is an unmarshal error. -/
def goList {α : Type} (fields : List (String × Json)) (k : String)
    (f : Json → Option α) : Option (List α) :=
  match jlookup fields k with
  | none => some []
  | some .null => some []
  | some (.arr xs) => xs.mapM f
  | some _ => none

/-! ## Go `time.Format` on the layouts used by the sources -/

/-- A calendar date as carried by Go's `time.Time` for the purposes of the
two `Format` calls in the sources. -/
structure Date where
  year : Nat
  month : Nat
  day : Nat
  deriving Repr, DecidableEq

/-- Zero-pad a number to at least two digits, as the `01` and `02` layout
tokens do. -/
def pad2 (n : Nat) : String :=
  if n < 10 then "0" ++ toString n else toString n

/-- Zero-pad a year to at least four digits, as the `2006` layout token
does. -/
def pad4 (n : Nat) : String :=
  if n < 10 then "000" ++ toString n
  else if n < 100 then "00" ++ toString n
  else if n < 1000 then "0" ++ toString n
  else toString n

/-- Interpreter for Go reference-time layouts restricted to the tokens that
occur in this repository: `2006` renders the year, `01` renders the MONTH
(zero-padded), `02` renders the day of month, and any other character is
copied verbatim. -/
def goFormatAux (d : Date) : List Char → String
  | '2' :: '0' :: '0' :: '6' :: rest => pad4 d.year ++ goFormatAux d rest
  | '0' :: '1' :: rest => pad2 d.month ++ goFormatAux d rest
  | '0' :: '2' :: rest => pad2 d.day ++ goFormatAux d rest
  | c :: rest => String.singleton c ++ goFormatAux d rest
  | [] => ""

/-- Embedding of `t.Format(layout)` for the layouts used by the sources. -/
def goFormat (d : Date) (layout : String) : String :=
  goFormatAux d layout.data

/-! ## IEEE-754 binary64 model -/

/-- An exact numeric value, as an unreduced fraction.  The denominator is
kept as a bare `Nat`; all fractions built below have a positive
denominator. -/
structure Frac where
  num : Int
  den : Nat
  deriving Repr, DecidableEq, Inhabited

/-- The rational denoted by a fraction. -/
def Frac.toRat (f : Frac) : ℚ := (f.num : ℚ) / (f.den : ℚ)

/-- Exact multiplication by an integer (used for `amount * 1000`, whose
second operand is exactly representable). -/
def Frac.mulInt (f : Frac) (k : Int) : Frac := ⟨f.num * k, f.den⟩

/-- Exact division by a positive natural (used to expose the exact quotient
that an IEEE division rounds). -/
def Frac.divNat (f : Frac) (k : Nat) : Frac := ⟨f.num, f.den * k⟩

/-- Scale a non-negative fraction into the binade `[2^52, 2^53)`, returning
the scaled fraction together with the number of doublings and halvings
applied.  The fuel bound of 1200 covers the full binary64 exponent range. -/
def fpNorm : Nat → Frac → Nat → Nat → (Frac × Nat × Nat)
  | 0, a, u, d => (a, u, d)
  | n+1, a, u, d =>
    if a.num < (2 ^ 52 : Int) * (a.den : Int) then fpNorm n ⟨a.num * 2, a.den⟩ (u+1) d
    else if (2 ^ 53 : Int) * (a.den : Int) ≤ a.num then fpNorm n ⟨a.num, a.den * 2⟩ u (d+1)
    else (a, u, d)

/-- Round a fraction to the nearest integer, ties to even. -/
def roundHalfEven (s : Frac) : Int :=
  let d : Int := (s.den : Int)
  let f := s.num / d
  let r2 := 2 * (s.num - f * d)
  if r2 < d then f
  else if d < r2 then f + 1
  else if f % 2 = 0 then f else f + 1

/-- Round an exact value to the nearest binary64 value (round to nearest,
ties to even, 53 significant bits). -/
def fpRound64 (q : Frac) : Frac :=
  if q.num = 0 then ⟨0, 1⟩
  else
    let p := fpNorm 1200 ⟨(q.num.natAbs : Int), q.den⟩ 0 0
    let r := roundHalfEven p.1
    let v : Frac := ⟨r * 2 ^ p.2.2, 2 ^ p.2.1⟩
    if q.num < 0 then ⟨-v.num, v.den⟩ else v

/-- Truncation toward zero, the semantics of Go's `int64(f)` conversion on a
 finite float64. -/
def fracTrunc (f : Frac) : Int :=
  if 0 ≤ f.num then f.num / (f.den : Int)
  else -((-f.num) / (f.den : Int))

/-- Embedding of `client.MilliunitsToAmount`: `float64(milliunits) / 1000.0`.
The `int64` to `float64` conversion rounds to nearest, then the division's
exact quotient is rounded to nearest. -/
def MilliunitsToAmount (milliunits : Int) : Frac :=
  fpRound64 ((fpRound64 ⟨milliunits, 1⟩).divNat 1000)

/-- Embedding of `client.AmountToMilliunits`: `int64(amount * 1000)`.  The
argument is the binary64 value the caller holds; the product is rounded to
nearest and the conversion truncates toward zero. -/
def AmountToMilliunits (amount : Frac) : Int :=
  fracTrunc (fpRound64 (amount.mulInt 1000))

/-! ## The typed REST client (`internal/client`) -/

/-- Go struct `client.Error`: the structured YNAB API error. -/
structure Error where
  id : String
  name : String
  detail : String
  deriving Repr, DecidableEq

/-- Unmarshal the `client.Error` struct. -/
def unmarshalError : Json → Option Error
  | .obj f => do
      let i ← goStr f "id"
      let n ← goStr f "name"
      let d ← goStr f "detail"
      pure ⟨i, n, d⟩
  | .null => some ⟨"", "", ""⟩
  | _ => none

/-- Go struct `client.ErrorResponse`, with its pointer field `Error *Error`
(a `none` value is the nil pointer). -/
structure ErrorResponse where
  error : Option Error
  deriving Repr, DecidableEq

/-- Unmarshal `client.ErrorResponse` from a JSON value. -/
def unmarshalErrorResponse : Json → Option ErrorResponse
  | .null => some ⟨none⟩
  | .obj f => (goPtr f "error" unmarshalError).map ErrorResponse.mk
  | _ => none

/-- The mocked transport: the HTTP response received for the single request
an operation issues.  `raw` is the body text; `parsed` is the result of
JSON-parsing it (`none` when the text is not valid JSON). -/
structure HTTPResponse where
  status : Nat
  raw : String
  parsed : Option Json
  deriving Repr, Inhabited

/-- The errors a client operation can surface, after the request was
executed: the structured API error (returned for a parseable error
envelope on status ≥ 400), the generic error text built by `doRequest`
from the raw body and status, and the `failed to parse response` decode
error of the typed operations. -/
inductive ClientError where
  | apiError (e : Error)
  | httpError (raw : String) (status : Nat)
  | parseError
  deriving Repr, DecidableEq

/-- Embedding of `(*Client).doRequest` from the point the response arrives:
a status ≥ 400 fails with the structured API error when the body
unmarshals as `ErrorResponse` with a non-nil `Error`, and with the generic
error carrying the raw body and status otherwise; any other status returns
the body for the caller to decode. -/
def doRequest (resp : HTTPResponse) : Except ClientError HTTPResponse :=
  if 400 ≤ resp.status then
    match resp.parsed.bind unmarshalErrorResponse with
    | some ⟨some e⟩ => .error (.apiError e)
    | _ => .error (.httpError resp.raw resp.status)
  else .ok resp

/-- Go struct `client.User`. -/
structure User where
  id : String
  deriving Repr, DecidableEq

/-- Unmarshal `client.User`. -/
def unmarshalUser : Json → Option User
  | .obj f => (goStr f "id").map User.mk
  | .null => some ⟨""⟩
  | _ => none

/-- Unmarshal `client.UserResponse` and unwrap `resp.Data.User`. -/
def unmarshalUserResponse : Json → Option User
  | .null => some ⟨""⟩
  | .obj f =>
      match jlookup f "data" with
      | none => some ⟨""⟩
      | some .null => some ⟨""⟩
      | some (.obj df) =>
          match jlookup df "user" with
          | none => some ⟨""⟩
          | some j => unmarshalUser j
      | some _ => none
  | _ => none

/-- Embedding of `GetUser`: decode the success body into `UserResponse` and
return `resp.Data.User`; a body that fails to decode is the
`failed to parse response` error. -/
def GetUser (resp : HTTPResponse) : Except ClientError User :=
  match doRequest resp with
  | .error e => .error e
  | .ok body =>
      match body.parsed.bind unmarshalUserResponse with
      | none => .error .parseError
      | some u => .ok u

/-- Go struct `client.DateFormat`. -/
structure DateFormat where
  format : String
  deriving Repr, DecidableEq

/-- Unmarshal `client.DateFormat`. -/
def unmarshalDateFormat : Json → Option DateFormat
  | .obj f => (goStr f "format").map DateFormat.mk
  | .null => some ⟨""⟩
  | _ => none

/-- Go struct `client.CurrencyFormat`. -/
structure CurrencyFormat where
  isoCode : String
  exampleFormat : String
  decimalDigits : Int
  decimalSeparator : String
  symbolFirst : Bool
  groupSeparator : String
  currencySymbol : String
  displaySymbol : Bool
  deriving Repr, DecidableEq

/-- Unmarshal `client.CurrencyFormat`. -/
def unmarshalCurrencyFormat : Json → Option CurrencyFormat
  | .obj f => do
      let iso ← goStr f "iso_code"
      let ex ← goStr f "example_format"
      let dd ← goInt f "decimal_digits"
      let ds ← goStr f "decimal_separator"
      let sf ← goBool f "symbol_first"
      let gs ← goStr f "group_separator"
      let cs ← goStr f "currency_symbol"
      let dsym ← goBool f "display_symbol"
      pure ⟨iso, ex, dd, ds, sf, gs, cs, dsym⟩
  | .null => some ⟨"", "", 0, "", false, "", "", false⟩
  | _ => none

/-- Go struct `client.Budget`, with its pointer fields. -/
structure Budget where
  id : String
  name : String
  lastModifiedOn : String
  firstMonth : String
  lastMonth : String
  dateFormat : Option DateFormat
  currencyFormat : Option CurrencyFormat
  deriving Repr, DecidableEq

/-- Unmarshal `client.Budget`. -/
def unmarshalBudget : Json → Option Budget
  | .obj f => do
      let i ← goStr f "id"
      let n ← goStr f "name"
      let lm ← goStr f "last_modified_on"
      let fm ← goStr f "first_month"
      let la ← goStr f "last_month"
      let df ← goPtr f "date_format" unmarshalDateFormat
      let cf ← goPtr f "currency_format" unmarshalCurrencyFormat
      pure ⟨i, n, lm, fm, la, df, cf⟩
  | .null => some ⟨"", "", "", "", "", none, none⟩
  | _ => none

/-- Unmarshal `client.BudgetsResponse` and unwrap `resp.Data.Budgets`: a
missing `data` or `budgets` key leaves the nil slice (the Go zero value),
a type mismatch anywhere is an unmarshal error. -/
def unmarshalBudgetsResponse : Json → Option (List Budget)
  | .null => some []
  | .obj f =>
      match jlookup f "data" with
      | none => some []
      | some .null => some []
      | some (.obj df) => goList df "budgets" unmarshalBudget
      | some _ => none
  | _ => none

/-- Embedding of `GetBudgets`: decode the success body into
`BudgetsResponse` and return `resp.Data.Budgets`; a body that fails to
decode is the `failed to parse response` error. -/
def GetBudgets (resp : HTTPResponse) : Except ClientError (List Budget) :=
  match doRequest resp with
  | .error e => .error e
  | .ok body =>
      match body.parsed.bind unmarshalBudgetsResponse with
      | none => .error .parseError
      | some budgets => .ok budgets

/-- A request as handed to `doRequest`: method, path (with query string)
and the marshalled JSON body, if any. -/
structure HTTPRequest where
  method : String
  path : String
  body : Option Json
  deriving Repr

/-- The request issued by `GetMonth`:
`GET /budgets/%s/months/%s`. -/
def GetMonthRequest (budgetID month : String) : HTTPRequest :=
  ⟨"GET", "/budgets/" ++ budgetID ++ "/months/" ++ month, none⟩

/-- The request issued by `UpdateCategory`:
`PATCH /budgets/%s/months/%s/categories/%s` with body
`UpdateCategoryRequest` marshalled as a `category` object holding only the
new `budgeted` amount. -/
def UpdateCategoryRequest (budgetID categoryID month : String) (budgeted : Int) : HTTPRequest :=
  ⟨"PATCH",
   "/budgets/" ++ budgetID ++ "/months/" ++ month ++ "/categories/" ++ categoryID,
   some (.obj [("category", .obj [("budgeted", .num budgeted)])])⟩

/-- Go struct `client.TransactionFilter`. -/
structure TransactionFilter where
  sinceDate : String
  type : String
  accountID : String
  categoryID : String
  payeeID : String
  deriving Repr, DecidableEq

/-- Embedding of the path building of `GetTransactions`: the query
parameters are emitted by `url.Values.Encode` in sorted key order
(`since_date` before `type`); percent-escaping is not modelled (the values
used by the command layer contain no reserved characters). -/
def getTransactionsPath (budgetID : String) (filter : Option TransactionFilter) : String :=
  let base := "/budgets/" ++ budgetID ++ "/transactions"
  match filter with
  | none => base
  | some f =>
      let params :=
        (if f.sinceDate ≠ "" then [("since_date", f.sinceDate)] else []) ++
        (if f.type ≠ "" then [("type", f.type)] else [])
      if params.isEmpty then base
      else base ++ "?" ++ String.intercalate "&" (params.map (fun kv => kv.1 ++ "=" ++ kv.2))

/-- Embedding of the path building of `GetTransactionsByAccount`. -/
def getTransactionsByAccountPath (budgetID accountID sinceDate : String) : String :=
  let path := "/budgets/" ++ budgetID ++ "/accounts/" ++ accountID ++ "/transactions"
  if sinceDate ≠ "" then path ++ "?since_date=" ++ sinceDate else path

/-- Embedding of the path building of `GetTransactionsByCategory`. -/
def getTransactionsByCategoryPath (budgetID categoryID sinceDate : String) : String :=
  let path := "/budgets/" ++ budgetID ++ "/categories/" ++ categoryID ++ "/transactions"
  if sinceDate ≠ "" then path ++ "?since_date=" ++ sinceDate else path

/-- Embedding of the path building of `GetTransactionsByPayee`. -/
def getTransactionsByPayeePath (budgetID payeeID sinceDate : String) : String :=
  let path := "/budgets/" ++ budgetID ++ "/payees/" ++ payeeID ++ "/transactions"
  if sinceDate ≠ "" then path ++ "?since_date=" ++ sinceDate else path

/-- Go struct `client.Account`.  Balances are signed integer milliunits;
the debt maps are modelled as association lists. -/
structure Account where
  id : String
  name : String
  type : String
  onBudget : Bool
  closed : Bool
  note : String
  balance : Int
  clearedBalance : Int
  unclearedBalance : Int
  transferPayeeID : String
  directImportLinked : Bool
  directImportInError : Bool
  lastReconciledAt : String
  debtOriginalBalance : Int
  debtInterestRates : List (String × Int)
  debtMinimumPayments : List (String × Int)
  debtEscrowAmounts : List (String × Int)
  deleted : Bool
  deriving Repr, DecidableEq, Inhabited

/-- Go struct `client.Category`. -/
structure Category where
  id : String
  categoryGroupID : String
  categoryGroupName : String
  name : String
  hidden : Bool
  originalCategoryGroupID : String
  note : String
  budgeted : Int
  activity : Int
  balance : Int
  goalType : String
  goalDay : Int
  goalCadence : Int
  goalCadenceFrequency : Int
  goalCreationMonth : String
  goalTarget : Int
  goalTargetMonth : String
  goalPercentageComplete : Int
  goalMonthsToBudget : Int
  goalUnderFunded : Int
  goalOverallFunded : Int
  goalOverallLeft : Int
  deleted : Bool
  deriving Repr, DecidableEq, Inhabited

/-- Go struct `client.CategoryGroup`. -/
structure CategoryGroup where
  id : String
  name : String
  hidden : Bool
  deleted : Bool
  categories : List Category
  deriving Repr, DecidableEq, Inhabited

/-- Go struct `client.Payee`. -/
structure Payee where
  id : String
  name : String
  transferAccountID : String
  deleted : Bool
  deriving Repr, DecidableEq, Inhabited

/-- Go struct `client.Subtransaction`. -/
structure Subtransaction where
  id : String
  transactionID : String
  amount : Int
  memo : String
  payeeID : String
  payeeName : String
  categoryID : String
  categoryName : String
  transferAccountID : String
  transferTransactionID : String
  deleted : Bool
  deriving Repr, DecidableEq, Inhabited

/-- Go struct `client.Transaction`. -/
structure Transaction where
  id : String
  date : String
  amount : Int
  memo : String
  cleared : String
  approved : Bool
  flagColor : String
  flagName : String
  accountID : String
  accountName : String
  payeeID : String
  payeeName : String
  categoryID : String
  categoryName : String
  transferAccountID : String
  transferTransactionID : String
  matchedTransactionID : String
  importID : String
  importPayeeName : String
  importPayeeNameOriginal : String
  debtTransactionType : String
  deleted : Bool
  subtransactions : List Subtransaction
  deriving Repr, DecidableEq, Inhabited

/-- Go struct `client.SaveTransaction`: the mutable fields sent by create
and by the full-replace update. -/
structure SaveTransaction where
  accountID : String
  date : String
  amount : Int
  payeeID : String
  payeeName : String
  categoryID : String
  memo : String
  cleared : String
  approved : Bool
  flagColor : String
  importID : String
  deriving Repr, DecidableEq, Inhabited

/-- Go struct `client.ScheduledSubtransaction`. -/
structure ScheduledSubtransaction where
  id : String
  scheduledTransactionID : String
  amount : Int
  memo : String
  payeeID : String
  categoryID : String
  transferAccountID : String
  deleted : Bool
  deriving Repr, DecidableEq, Inhabited

/-- Go struct `client.ScheduledTransaction`. -/
structure ScheduledTransaction where
  id : String
  dateFirst : String
  dateNext : String
  frequency : String
  amount : Int
  memo : String
  flagColor : String
  flagName : String
  accountID : String
  accountName : String
  payeeID : String
  payeeName : String
  categoryID : String
  categoryName : String
  transferAccountID : String
  deleted : Bool
  subtransactions : List ScheduledSubtransaction
  deriving Repr, DecidableEq, Inhabited

/-- Go struct `client.Month`. -/
structure Month where
  month : String
  note : String
  income : Int
  budgeted : Int
  activity : Int
  toBeBudgeted : Int
  ageOfMoney : Int
  deleted : Bool
  categories : List Category
  deriving Repr, DecidableEq, Inhabited

/-! ## The command layer (`cmd`) -/

/-- Go struct `config.Config`: the three persisted fields. -/
structure Config where
  token : String
  defaultBudget : String
  format : String
  deriving Repr, DecidableEq

/-- The error message of `getBudgetID` when neither the flag nor the
configured default supplies a budget. -/
def noBudgetMsg : String :=
  "no budget specified. Use --budget flag or set a default with " ++
  "\x27ynabctl config set-default-budget <id>\x27"

/-- Embedding of the budget-id resolution a subcommand observes: first
`rootCmd.PersistentPreRunE` overwrites the empty `--budget` flag with the
configured default, then `getBudgetID` returns the resulting id or fails
with the usage error. -/
def resolveBudgetID (flagBudget : String) (cfg : Config) : Except String String :=
  let budgetID := if flagBudget = "" then cfg.defaultBudget else flagBudget
  if budgetID ≠ "" then .ok budgetID
  else if cfg.defaultBudget ≠ "" then .ok cfg.defaultBudget
  else .error noBudgetMsg

/-- Embedding of the output-format resolution a subcommand observes:
`PersistentPreRunE` overwrites the empty `--format` flag with the
configured format, falling back to `json`, then `getOutputFormat` returns
the result or `json`. -/
def resolveOutputFormat (flagFormat : String) (cfg : Config) : String :=
  let fmt := if flagFormat = "" then cfg.format else flagFormat
  let fmt := if fmt = "" then "json" else fmt
  if fmt ≠ "" then fmt else "json"

/-- The failure of a subcommand run: either the usage error returned before
the client is consulted, or an error propagated from the one client
operation the command invokes. -/
inductive CmdError where
  | usage (msg : String)
  | client (e : ClientError)
  deriving Repr, DecidableEq

/-- The shape every budget-scoped subcommand shares: resolve the budget id
and only then invoke the single client operation with it. -/
def commandRun {α : Type} (flagBudget : String) (cfg : Config)
    (op : String → Except ClientError α) : Except CmdError α :=
  match resolveBudgetID flagBudget cfg with
  | .error msg => .error (.usage msg)
  | .ok id =>
      match op id with
      | .error e => .error (.client e)
      | .ok v => .ok v

/-- Embedding of the month resolution in `categoriesUpdateCmd`: an empty or
`current` `--month` flag is replaced by `time.Now().Format("2006-01-01")`. -/
def resolveCategoryMonth (flagMonth : String) (today : Date) : String :=
  if flagMonth = "" ∨ flagMonth = "current" then goFormat today "2006-01-01"
  else flagMonth

/-- The `UpdateCategory` call issued by `categoriesUpdateCmd` for a resolved
budget and category id: the month flag is resolved and the `--budgeted`
float is converted with `AmountToMilliunits`. -/
def categoriesUpdateCall (budgetID categoryID flagMonth : String)
    (flagBudgeted : Frac) (today : Date) : HTTPRequest :=
  UpdateCategoryRequest budgetID categoryID
    (resolveCategoryMonth flagMonth today)
    (AmountToMilliunits flagBudgeted)

/-- Embedding of the month resolution in `monthsGetCmd`: a missing argument
defaults to `current`, and `current` becomes the first day of the current
month formatted with layout `2006-01-02`. -/
def resolveMonthArg (args : List String) (today : Date) : String :=
  let month := match args with
    | [] => "current"
    | a :: _ => a
  if month = "current" then goFormat ⟨today.year, today.month, 1⟩ "2006-01-02"
  else month

/-- The `GetMonth` call issued by `monthsGetCmd` for a resolved budget id. -/
def monthsGetCall (budgetID : String) (args : List String) (today : Date) : HTTPRequest :=
  GetMonthRequest budgetID (resolveMonthArg args today)

/-- Which flags of `transactions update` were explicitly supplied
(`cmd.Flags().Changed(...)`). -/
structure UpdateChanged where
  account : Bool
  date : Bool
  amount : Bool
  payeeId : Bool
  payeeName : Bool
  category : Bool
  memo : Bool
  cleared : Bool
  approved : Bool
  flag : Bool
  deriving Repr, DecidableEq, Inhabited

/-- The parsed values of the `transactions update` flags.  The amount flag
is the binary64 value the flag parser produced. -/
structure UpdateFlagValues where
  accountID : String
  date : String
  amount : Frac
  payeeID : String
  payeeName : String
  categoryID : String
  memo : String
  cleared : String
  approved : Bool
  flagColor : String
  deriving Repr, DecidableEq, Inhabited

/-- Embedding of the payload construction in `transactionsUpdateCmd`: start
from the existing transaction's fields (note that `PayeeName` and
`ImportID` are not copied), then override each field whose flag was
explicitly supplied. -/
def buildUpdateTxn (existing : Transaction) (ch : UpdateChanged)
    (v : UpdateFlagValues) : SaveTransaction :=
  let txn : SaveTransaction :=
    { accountID := existing.accountID
      date := existing.date
      amount := existing.amount
      payeeID := existing.payeeID
      payeeName := ""
      categoryID := existing.categoryID
      memo := existing.memo
      cleared := existing.cleared
      approved := existing.approved
      flagColor := existing.flagColor
      importID := "" }
  let txn := if ch.account then { txn with accountID := v.accountID } else txn
  let txn := if ch.date then { txn with date := v.date } else txn
  let txn := if ch.amount then { txn with amount := AmountToMilliunits v.amount } else txn
  let txn := if ch.payeeId then { txn with payeeID := v.payeeID } else txn
  let txn := if ch.payeeName then { txn with payeeName := v.payeeName } else txn
  let txn := if ch.category then { txn with categoryID := v.categoryID } else txn
  let txn := if ch.memo then { txn with memo := v.memo } else txn
  let txn := if ch.cleared then { txn with cleared := v.cleared } else txn
  let txn := if ch.approved then { txn with approved := v.approved } else txn
  let txn := if ch.flag then { txn with flagColor := v.flagColor } else txn
  txn

/-- The flags of `transactions list`. -/
structure TxnListFlags where
  sinceDate : String
  type : String
  accountID : String
  categoryID : String
  payeeID : String
  deriving Repr, DecidableEq

/-- The client call `transactionsListCmd` selects, with the arguments it
passes. -/
inductive TxnListCall where
  | byAccount (budgetID accountID sinceDate : String)
  | byCategory (budgetID categoryID sinceDate : String)
  | byPayee (budgetID payeeID sinceDate : String)
  | unscoped (budgetID : String) (filter : TransactionFilter)
  deriving Repr, DecidableEq

/-- Embedding of the endpoint dispatch in `transactionsListCmd`: an account
filter selects the account-scoped endpoint, else a category filter the
category-scoped one, else a payee filter the payee-scoped one, else the
generic list with a `TransactionFilter` holding the since-date and type. -/
def transactionsListDispatch (budgetID : String) (fl : TxnListFlags) : TxnListCall :=
  if fl.accountID ≠ "" then .byAccount budgetID fl.accountID fl.sinceDate
  else if fl.categoryID ≠ "" then .byCategory budgetID fl.categoryID fl.sinceDate
  else if fl.payeeID ≠ "" then .byPayee budgetID fl.payeeID fl.sinceDate
  else .unscoped budgetID ⟨fl.sinceDate, fl.type, "", "", ""⟩

/-- The request path of the dispatched transactions-list call. -/
def TxnListCall.path : TxnListCall → String
  | .byAccount b a s => getTransactionsByAccountPath b a s
  | .byCategory b c s => getTransactionsByCategoryPath b c s
  | .byPayee b p s => getTransactionsByPayeePath b p s
  | .unscoped b f => getTransactionsPath b (some f)

/-! ## The renderer (`internal/output`) -/

/-- The dynamic value shapes `printTable` switches on; `other` stands for
any value without a dedicated table layout. -/
inductive RenderValue where
  | user (u : User)
  | budgets (l : List Budget)
  | budget (b : Budget)
  | accounts (l : List Account)
  | account (a : Account)
  | categoryGroups (l : List CategoryGroup)
  | category (c : Category)
  | transactions (l : List Transaction)
  | transaction (t : Transaction)
  | payees (l : List Payee)
  | payee (p : Payee)
  | scheduleds (l : List ScheduledTransaction)
  | scheduled (st : ScheduledTransaction)
  | months (l : List Month)
  | month (m : Month)
  | other (j : Json)
  deriving Repr

/-- The entries printed by each table layout. -/
inductive TableOut where
  | userT (u : User)
  | budgetsT (rows : List Budget)
  | budgetT (b : Budget)
  | accountsT (rows : List Account)
  | accountT (a : Account)
  | categoryGroupsT (rows : List (String × Category))
  | categoryT (c : Category)
  | transactionsT (rows : List Transaction)
  | transactionT (t : Transaction)
  | payeesT (rows : List Payee)
  | payeeT (p : Payee)
  | scheduledsT (rows : List ScheduledTransaction)
  | scheduledT (st : ScheduledTransaction)
  | monthsT (rows : List Month)
  | monthT (m : Month)

/-- A rendered result, at the granularity this development reasons about:
a table output records exactly the entries that received a row, a JSON
output carries the value verbatim. -/
inductive Rendered where
  | table (t : TableOut)
  | json (v : RenderValue)

/-- The category rows of one group in the `[]client.CategoryGroup` layout:
the inner loop skips hidden and deleted categories. -/
def groupCategoryRows (groupName : String) : List Category → List (String × Category)
  | [] => []
  | c :: rest =>
      if c.deleted || c.hidden then groupCategoryRows groupName rest
      else (groupName, c) :: groupCategoryRows groupName rest

/-- The rows of the `[]client.CategoryGroup` layout: the outer loop skips
hidden and deleted groups. -/
def categoryGroupRows : List CategoryGroup → List (String × Category)
  | [] => []
  | g :: rest =>
      if g.deleted || g.hidden then categoryGroupRows rest
      else groupCategoryRows g.name g.categories ++ categoryGroupRows rest

/-- The rows of the `[]client.Transaction` layout: deleted entries are
skipped. -/
def transactionRows : List Transaction → List Transaction
  | [] => []
  | t :: rest => if t.deleted then transactionRows rest else t :: transactionRows rest

/-- The rows of the `[]client.Payee` layout: deleted entries are skipped. -/
def payeeRows : List Payee → List Payee
  | [] => []
  | p :: rest => if p.deleted then payeeRows rest else p :: payeeRows rest

/-- The rows of the `[]client.ScheduledTransaction` layout: deleted entries
are skipped. -/
def scheduledRows : List ScheduledTransaction → List ScheduledTransaction
  | [] => []
  | st :: rest => if st.deleted then scheduledRows rest else st :: scheduledRows rest

/-- The rows of the `[]client.Month` layout: deleted entries are skipped. -/
def monthRows : List Month → List Month
  | [] => []
  | m :: rest => if m.deleted then monthRows rest else m :: monthRows rest

/-- Embedding of `printJSON`: the value is encoded verbatim. -/
def printJSON (v : RenderValue) : Rendered := .json v

/-- Embedding of `printTable`: each known shape gets its layout (the
`[]client.Account` loop prints every element, the other list layouts skip
the entries noted above), and any other shape falls back to JSON. -/
def printTable : RenderValue → Rendered
  | .user u => .table (.userT u)
  | .budgets l => .table (.budgetsT l)
  | .budget b => .table (.budgetT b)
  | .accounts l => .table (.accountsT l)
  | .account a => .table (.accountT a)
  | .categoryGroups l => .table (.categoryGroupsT (categoryGroupRows l))
  | .category c => .table (.categoryT c)
  | .transactions l => .table (.transactionsT (transactionRows l))
  | .transaction t => .table (.transactionT t)
  | .payees l => .table (.payeesT (payeeRows l))
  | .payee p => .table (.payeeT p)
  | .scheduleds l => .table (.scheduledsT (scheduledRows l))
  | .scheduled st => .table (.scheduledT st)
  | .months l => .table (.monthsT (monthRows l))
  | .month m => .table (.monthT m)
  | .other j => printJSON (.other j)

/-- Embedding of `Formatter.Print`: table mode dispatches to `printTable`,
every other mode prints JSON. -/
def Print (format : String) (v : RenderValue) : Rendered :=
  if format = "table" then printTable v else printJSON v

/-! ## Supporting lemmas -/

/-- Pushing `toRat` through exact multiplication by an integer. -/
theorem Frac.toRat_mulInt (f : Frac) (k : Int) : (f.mulInt k).toRat = f.toRat * k := by
  unfold Frac.mulInt Frac.toRat
  push_cast
  ring

/-- Pushing `toRat` through exact division by a natural. -/
theorem Frac.toRat_divNat (f : Frac) (k : Nat) : (f.divNat k).toRat = f.toRat / k := by
  unfold Frac.divNat Frac.toRat
  push_cast
  rw [div_div]

/-- Truncation toward zero of a fraction that denotes an integer recovers
that integer. -/
theorem fracTrunc_eq_of_toRat_int (f : Frac) (m : Int) (h : f.toRat = (m : ℚ)) :
    fracTrunc f = m := by
  unfold Frac.toRat at h
  unfold fracTrunc
  by_cases hn : 0 ≤ f.num
  · rw [if_pos hn]
    have hfl : ⌊((f.num : ℚ) / (f.den : ℚ))⌋ = f.num / (f.den : Int) :=
      Rat.floor_intCast_div_natCast f.num f.den
    rw [h] at hfl
    simpa using hfl.symm
  · rw [if_neg hn]
    have hfl : ⌊(((-f.num : Int) : ℚ) / (f.den : ℚ))⌋ = (-f.num) / (f.den : Int) :=
      Rat.floor_intCast_div_natCast (-f.num) f.den
    have hneg : (((-f.num : Int) : ℚ) / (f.den : ℚ)) = ((-m : Int) : ℚ) := by
      push_cast
      rw [neg_div, h]
    rw [hneg] at hfl
    simp only [Int.floor_intCast] at hfl
    omega

/-- The transaction-list table loop keeps exactly the non-deleted entries. -/
theorem transactionRows_eq_filter (l : List Transaction) :
    transactionRows l = l.filter (fun t => !t.deleted) := by
  induction l with
  | nil => rfl
  | cons t rest ih =>
      by_cases ht : t.deleted
      · simp [transactionRows, List.filter, ht, ih]
      · simp [transactionRows, List.filter, ht, ih]

/-- The payee-list table loop keeps exactly the non-deleted entries. -/
theorem payeeRows_eq_filter (l : List Payee) :
    payeeRows l = l.filter (fun p => !p.deleted) := by
  induction l with
  | nil => rfl
  | cons p rest ih =>
      by_cases hp : p.deleted
      · simp [payeeRows, List.filter, hp, ih]
      · simp [payeeRows, List.filter, hp, ih]

/-- The scheduled-transaction-list table loop keeps exactly the non-deleted
entries. -/
theorem scheduledRows_eq_filter (l : List ScheduledTransaction) :
    scheduledRows l = l.filter (fun st => !st.deleted) := by
  induction l with
  | nil => rfl
  | cons st rest ih =>
      by_cases hst : st.deleted
      · simp [scheduledRows, List.filter, hst, ih]
      · simp [scheduledRows, List.filter, hst, ih]

/-- The month-list table loop keeps exactly the non-deleted entries. -/
theorem monthRows_eq_filter (l : List Month) :
    monthRows l = l.filter (fun m => !m.deleted) := by
  induction l with
  | nil => rfl
  | cons m rest ih =>
      by_cases hm : m.deleted
      · simp [monthRows, List.filter, hm, ih]
      · simp [monthRows, List.filter, hm, ih]

/-- The inner category loop keeps exactly the categories that are neither
deleted nor hidden. -/
theorem groupCategoryRows_eq_filter (g : String) (cs : List Category) :
    groupCategoryRows g cs =
      (cs.filter (fun c => !(c.deleted || c.hidden))).map (fun c => (g, c)) := by
  induction cs with
  | nil => rfl
  | cons c rest ih =>
      by_cases hc : c.deleted || c.hidden
      · simp [groupCategoryRows, List.filter, hc, ih]
      · simp [groupCategoryRows, List.filter, hc, ih]

/-- The nested category-group loops keep exactly the visible categories of
the visible groups. -/
theorem categoryGroupRows_eq_filter (l : List CategoryGroup) :
    categoryGroupRows l =
      (l.filter (fun g => !(g.deleted || g.hidden))).flatMap
        (fun g => (g.categories.filter (fun c => !(c.deleted || c.hidden))).map
          (fun c => (g.name, c))) := by
  induction l with
  | nil => rfl
  | cons g rest ih =>
      by_cases hg : g.deleted || g.hidden
      · simp [categoryGroupRows, List.filter, hg, ih]
      · simp [categoryGroupRows, List.filter, hg, ih, groupCategoryRows_eq_filter]

/-! ## Claims -/

/-- C3: `AmountToMilliunits` multiplies its binary64 input by 1000 (in
binary64 arithmetic) and truncates toward zero.  On the binary64 values of
`0.0`, `-50.00` and `12.34` it returns `0`, `-50000` and `12340`; the last
conjunct exhibits truncation toward zero rather than flooring on the
binary64 value of `-2.01`, whose rounded product lies strictly between
`-2010` and `-2009`. -/
theorem amountToMilliunits_spec_examples :
    AmountToMilliunits (fpRound64 ⟨0, 1⟩) = 0 ∧
    AmountToMilliunits (fpRound64 ⟨-5000, 100⟩) = -50000 ∧
    AmountToMilliunits (fpRound64 ⟨1234, 100⟩) = 12340 ∧
    AmountToMilliunits (fpRound64 ⟨-201, 100⟩) = -2009 :=
  ⟨by decide, by decide, by decide, by decide⟩

/-- C2: the category-update command resolves a `current` (or empty)
`--month` flag with Go layout `2006-01-01`, in which both `01` tokens
render the month, so on 2026-10-11 the request path embeds `2026-10-10`
and not the first-of-month date `2026-10-01` that the command's own help
text promises. -/
theorem categoriesUpdate_currentMonth_bug :
    (categoriesUpdateCall "b1" "c1" "current" ⟨0, 1⟩ ⟨2026, 10, 11⟩).path =
      "/budgets/b1/months/2026-10-10/categories/c1" ∧
    resolveCategoryMonth "" ⟨2026, 10, 11⟩ = "2026-10-10" ∧
    "2026-10-10" ≠ "2026-10-01" :=
  ⟨by decide, by decide, by decide⟩

/-- C7: the month-fetch command resolves an absent month argument, and the
literal `current`, to the first day of the current calendar month in
`YYYY-MM-DD` form before the `GetMonth` request is built, and passes
exactly that string into the request. -/
theorem monthsGet_current_resolution (budgetID : String) (today : Date) :
    monthsGetCall budgetID [] today =
      GetMonthRequest budgetID (pad4 today.year ++ "-" ++ pad2 today.month ++ "-01") ∧
    monthsGetCall budgetID ["current"] today =
      GetMonthRequest budgetID (pad4 today.year ++ "-" ++ pad2 today.month ++ "-01") := by
  have hfmt : goFormat ⟨today.year, today.month, 1⟩ "2006-01-02" =
      pad4 today.year ++ "-" ++ pad2 today.month ++ "-01" := by
    show goFormatAux ⟨today.year, today.month, 1⟩ ("2006-01-02".data) = _
    simp only [goFormatAux, String.singleton]
    rw [show ("".push '-') = "-" from rfl, show pad2 (1 : Nat) = "01" from rfl]
    simp [String.append_assoc]
  constructor
  · unfold monthsGetCall resolveMonthArg
    rw [if_pos rfl, hfmt]
  · unfold monthsGetCall resolveMonthArg
    rw [if_pos rfl, hfmt]

/-- C1 counterexample: on a 200 response whose parsed body is
`\x7b"data":\x7b\x7d\x7d` — valid JSON, but without the `budgets` key —
`GetBudgets` succeeds with the empty list instead of failing with a decode
error: Go's decoder fills a missing key with the zero value. -/
theorem getBudgets_missing_key_succeeds :
    GetBudgets ⟨200, "\x7b\"data\":\x7b\x7d\x7d", some (.obj [("data", .obj [])])⟩ =
      .ok [] := by
  rfl

/-- C1 amended: on a success-status response, a body that is not valid
JSON, or whose envelope is mistyped, fails with the decode error — but a
parseable body whose `data` object lacks the `budgets` key decodes to a
successful empty (nil) list. -/
theorem getBudgets_decode_behaviour (status : Nat) (raw : String) (h : status < 400) :
    GetBudgets ⟨status, raw, none⟩ = .error .parseError ∧
    GetBudgets ⟨status, raw, some (.str "oops")⟩ = .error .parseError ∧
    GetBudgets ⟨status, raw, some (.obj [("data", .num 5)])⟩ = .error .parseError ∧
    GetBudgets ⟨status, raw, some (.obj [("data", .obj [])])⟩ = .ok [] := by
  have hlt : ¬ 400 ≤ status := by omega
  refine ⟨?_, ?_, ?_, ?_⟩ <;>
    simp [GetBudgets, doRequest, hlt, unmarshalBudgetsResponse, jlookup, goList,
      List.foldl]

/-- C1 amended, witness at status 200 with an empty raw body. -/
theorem getBudgets_decode_behaviour_witness :
    GetBudgets ⟨200, "", none⟩ = .error .parseError ∧
    GetBudgets ⟨200, "", some (.obj [("data", .obj [])])⟩ = .ok [] := by
  have h := getBudgets_decode_behaviour 200 "" (by decide)
  exact ⟨h.1, h.2.2.2⟩

/-- C4: every response with status ≥ 400 makes `doRequest` fail — and with
it the operations built on it, here `GetBudgets` and `GetUser` — with the
structured API error whenever the body unmarshals as the error envelope
with a present error object, and with the generic error carrying the raw
body and the status code otherwise. -/
theorem doRequest_error_mapping (resp : HTTPResponse) (h : 400 ≤ resp.status) :
    (∀ e : Error, resp.parsed.bind unmarshalErrorResponse = some ⟨some e⟩ →
        doRequest resp = .error (.apiError e)) ∧
    ((∀ e : Error, resp.parsed.bind unmarshalErrorResponse ≠ some ⟨some e⟩) →
        doRequest resp = .error (.httpError resp.raw resp.status)) ∧
    (∃ er, doRequest resp = .error er) ∧
    (∃ er, GetBudgets resp = .error er) ∧
    (∃ er, GetUser resp = .error er) := by
  have hfail : ∃ er, doRequest resp = .error er := by
    unfold doRequest
    rw [if_pos h]
    match resp.parsed.bind unmarshalErrorResponse with
    | some ⟨some e⟩ => exact ⟨.apiError e, rfl⟩
    | some ⟨none⟩ => exact ⟨.httpError resp.raw resp.status, rfl⟩
    | none => exact ⟨.httpError resp.raw resp.status, rfl⟩
  refine ⟨?_, ?_, hfail, ?_, ?_⟩
  · intro e he
    unfold doRequest
    rw [if_pos h, he]
  · intro hno
    unfold doRequest
    rw [if_pos h]
    match hm : resp.parsed.bind unmarshalErrorResponse with
    | some ⟨some e⟩ => exact absurd hm (hno e)
    | some ⟨none⟩ => rfl
    | none => rfl
  · obtain ⟨er, her⟩ := hfail
    exact ⟨er, by unfold GetBudgets; rw [her]⟩
  · obtain ⟨er, her⟩ := hfail
    exact ⟨er, by unfold GetUser; rw [her]⟩

/-- C4 witness: the mocked 401 with the error envelope naming
`unauthorized` and detail `bad token` is mapped to exactly that structured
API error, by both `doRequest` and `GetBudgets`. -/
theorem doRequest_error_mapping_witness :
    doRequest ⟨401,
        "\x7b\"error\":\x7b\"id\":\"401\",\"name\":\"unauthorized\",\"detail\":\"bad token\"\x7d\x7d",
        some (.obj [("error", .obj [("id", .str "401"), ("name", .str "unauthorized"),
          ("detail", .str "bad token")])])⟩ =
      .error (.apiError ⟨"401", "unauthorized", "bad token"⟩) ∧
    GetBudgets ⟨401,
        "\x7b\"error\":\x7b\"id\":\"401\",\"name\":\"unauthorized\",\"detail\":\"bad token\"\x7d\x7d",
        some (.obj [("error", .obj [("id", .str "401"), ("name", .str "unauthorized"),
          ("detail", .str "bad token")])])⟩ =
      .error (.apiError ⟨"401", "unauthorized", "bad token"⟩) := by
  have h := doRequest_error_mapping ⟨401,
      "\x7b\"error\":\x7b\"id\":\"401\",\"name\":\"unauthorized\",\"detail\":\"bad token\"\x7d\x7d",
      some (.obj [("error", .obj [("id", .str "401"), ("name", .str "unauthorized"),
        ("detail", .str "bad token")])])⟩ (by decide)
  have h1 := h.1 ⟨"401", "unauthorized", "bad token"⟩ (by rfl)
  exact ⟨h1, by unfold GetBudgets; rw [h1]⟩

/-- C5 counterexample: with no flags supplied at all, the payload built
from an existing transaction whose payee name is `Joe` carries payee name
`""` — the payee-name field of the existing transaction is not preserved. -/
theorem buildUpdateTxn_drops_payeeName :
    (buildUpdateTxn { (default : Transaction) with payeeName := "Joe", memo := "old", amount := -1000 }
        ⟨false, false, false, false, false, false, false, false, false, false⟩
        default).payeeName = "" ∧
    ({ (default : Transaction) with payeeName := "Joe", memo := "old", amount := -1000 } :
        Transaction).payeeName = "Joe" := by
  exact ⟨rfl, rfl⟩

/-- C5 amended: the full-replace payload carries the existing transaction's
fields with exactly the explicitly supplied flags overridden — for every
field except payee-name and import-id, which start from the empty string
instead of the existing values (payee-name is still overridable by its
flag; no flag exists for import-id). -/
theorem buildUpdateTxn_merge (existing : Transaction) (ch : UpdateChanged)
    (v : UpdateFlagValues) :
    (buildUpdateTxn existing ch v).accountID =
        (if ch.account then v.accountID else existing.accountID) ∧
    (buildUpdateTxn existing ch v).date = (if ch.date then v.date else existing.date) ∧
    (buildUpdateTxn existing ch v).amount =
        (if ch.amount then AmountToMilliunits v.amount else existing.amount) ∧
    (buildUpdateTxn existing ch v).payeeID =
        (if ch.payeeId then v.payeeID else existing.payeeID) ∧
    (buildUpdateTxn existing ch v).payeeName =
        (if ch.payeeName then v.payeeName else "") ∧
    (buildUpdateTxn existing ch v).categoryID =
        (if ch.category then v.categoryID else existing.categoryID) ∧
    (buildUpdateTxn existing ch v).memo = (if ch.memo then v.memo else existing.memo) ∧
    (buildUpdateTxn existing ch v).cleared =
        (if ch.cleared then v.cleared else existing.cleared) ∧
    (buildUpdateTxn existing ch v).approved =
        (if ch.approved then v.approved else existing.approved) ∧
    (buildUpdateTxn existing ch v).flagColor =
        (if ch.flag then v.flagColor else existing.flagColor) ∧
    (buildUpdateTxn existing ch v).importID = "" := by
  refine ⟨?_, ?_, ?_, ?_, ?_, ?_, ?_, ?_, ?_, ?_, ?_⟩ <;>
    simp only [buildUpdateTxn,
      apply_ite SaveTransaction.accountID, apply_ite SaveTransaction.date,
      apply_ite SaveTransaction.amount, apply_ite SaveTransaction.payeeID,
      apply_ite SaveTransaction.payeeName, apply_ite SaveTransaction.categoryID,
      apply_ite SaveTransaction.memo, apply_ite SaveTransaction.cleared,
      apply_ite SaveTransaction.approved, apply_ite SaveTransaction.flagColor,
      apply_ite SaveTransaction.importID, ite_self]

/-- C5 amended, witness realising the claim's example: an existing
transaction with memo `old` and amount `-1000`, overridden only in the
amount by the binary64 value `-2.0`, yields a payload with memo `old`
preserved and amount `-2000`. -/
theorem buildUpdateTxn_merge_witness :
    (buildUpdateTxn { (default : Transaction) with payeeName := "Joe", memo := "old", amount := -1000 }
        ⟨false, false, true, false, false, false, false, false, false, false⟩
        { (default : UpdateFlagValues) with amount := ⟨-2, 1⟩ }).memo = "old" ∧
    (buildUpdateTxn { (default : Transaction) with payeeName := "Joe", memo := "old", amount := -1000 }
        ⟨false, false, true, false, false, false, false, false, false, false⟩
        { (default : UpdateFlagValues) with amount := ⟨-2, 1⟩ }).amount = -2000 := by
  have h := buildUpdateTxn_merge
    { (default : Transaction) with payeeName := "Joe", memo := "old", amount := -1000 }
    ⟨false, false, true, false, false, false, false, false, false, false⟩
    { (default : UpdateFlagValues) with amount := ⟨-2, 1⟩ }
  refine ⟨?_, ?_⟩
  · rw [h.2.2.2.2.2.2.1]
    decide
  · rw [h.2.2.1]
    decide

/-- C8: a budget-scoped subcommand resolves the budget id to the explicit
flag when non-empty, else the configured default when non-empty, and
otherwise fails with the `no budget specified` usage error without ever
invoking the client operation; the output format resolves to the explicit
flag, else the configured default, else `json`. -/
theorem budget_and_format_resolution (flagBudget flagFormat : String) (cfg : Config) :
    resolveBudgetID flagBudget cfg =
      (if flagBudget ≠ "" then .ok flagBudget
       else if cfg.defaultBudget ≠ "" then .ok cfg.defaultBudget
       else .error noBudgetMsg) ∧
    resolveOutputFormat flagFormat cfg =
      (if flagFormat ≠ "" then flagFormat
       else if cfg.format ≠ "" then cfg.format else "json") ∧
    (flagBudget = "" → cfg.defaultBudget = "" →
      ∀ (α : Type) (op : String → Except ClientError α),
        commandRun flagBudget cfg op = .error (.usage noBudgetMsg)) := by
  refine ⟨?_, ?_, ?_⟩
  · by_cases hb : flagBudget = "" <;> by_cases hd : cfg.defaultBudget = "" <;>
      simp [resolveBudgetID, hb, hd]
  · by_cases hf : flagFormat = "" <;> by_cases hc : cfg.format = "" <;>
      simp [resolveOutputFormat, hf, hc]
  · intro hb hd α op
    simp [commandRun, resolveBudgetID, hb, hd]

/-- C8 witness: the three budget branches, the `json` fallback, and the
fact that an empty flag with an empty configured default yields the usage
error without consulting the supplied operation. -/
theorem budget_and_format_resolution_witness :
    resolveBudgetID "b1" ⟨"", "", ""⟩ = .ok "b1" ∧
    resolveBudgetID "" ⟨"", "d1", ""⟩ = .ok "d1" ∧
    resolveBudgetID "" ⟨"", "", ""⟩ = .error noBudgetMsg ∧
    resolveOutputFormat "" ⟨"", "", ""⟩ = "json" ∧
    commandRun "" ⟨"", "", ""⟩ (fun _ => (Except.ok 0 : Except ClientError Nat)) =
      .error (.usage noBudgetMsg) := by
  refine ⟨?_, ?_, ?_, ?_, ?_⟩
  · rw [(budget_and_format_resolution "b1" "" ⟨"", "", ""⟩).1]
    rfl
  · rw [(budget_and_format_resolution "" "" ⟨"", "d1", ""⟩).1]
    rfl
  · rw [(budget_and_format_resolution "" "" ⟨"", "", ""⟩).1]
    rfl
  · rw [(budget_and_format_resolution "" "" ⟨"", "", ""⟩).2.1]
    rfl
  · exact (budget_and_format_resolution "" "" ⟨"", "", ""⟩).2.2 rfl rfl Nat
      (fun _ => Except.ok 0)

/-- C10: the transactions-list command dispatches with strict precedence
account, then category, then payee: a non-empty account filter selects the
account-scoped endpoint and forwards only the since-date (category, payee
and type are dropped), likewise for the later filters, and only the
unscoped call carries the since-date and type in its filter. -/
theorem transactionsList_dispatch_priority (budgetID : String) (fl : TxnListFlags) :
    (fl.accountID ≠ "" →
      transactionsListDispatch budgetID fl = .byAccount budgetID fl.accountID fl.sinceDate ∧
      (transactionsListDispatch budgetID fl).path =
        getTransactionsByAccountPath budgetID fl.accountID fl.sinceDate) ∧
    (fl.accountID = "" → fl.categoryID ≠ "" →
      transactionsListDispatch budgetID fl = .byCategory budgetID fl.categoryID fl.sinceDate) ∧
    (fl.accountID = "" → fl.categoryID = "" → fl.payeeID ≠ "" →
      transactionsListDispatch budgetID fl = .byPayee budgetID fl.payeeID fl.sinceDate) ∧
    (fl.accountID = "" → fl.categoryID = "" → fl.payeeID = "" →
      transactionsListDispatch budgetID fl =
        .unscoped budgetID ⟨fl.sinceDate, fl.type, "", "", ""⟩) := by
  refine ⟨?_, ?_, ?_, ?_⟩
  · intro ha
    exact ⟨by simp [transactionsListDispatch, ha], by simp [transactionsListDispatch, ha,
      TxnListCall.path]⟩
  · intro ha hc
    simp [transactionsListDispatch, ha, hc]
  · intro ha hc hp
    simp [transactionsListDispatch, ha, hc, hp]
  · intro ha hc hp
    simp [transactionsListDispatch, ha, hc, hp]

/-- C10 witness: with every filter set, the account-scoped endpoint is
selected and its path mentions only the account and the since-date; the
later branches follow at suitably emptied flags, and the unscoped path
carries `since_date` and `type` as query parameters. -/
theorem transactionsList_dispatch_priority_witness :
    transactionsListDispatch "b" ⟨"2024-01-02", "unapproved", "a1", "c1", "p1"⟩ =
      .byAccount "b" "a1" "2024-01-02" ∧
    (transactionsListDispatch "b" ⟨"2024-01-02", "unapproved", "a1", "c1", "p1"⟩).path =
      "/budgets/b/accounts/a1/transactions?since_date=2024-01-02" ∧
    transactionsListDispatch "b" ⟨"", "", "", "c1", "p1"⟩ = .byCategory "b" "c1" "" ∧
    transactionsListDispatch "b" ⟨"", "", "", "", "p1"⟩ = .byPayee "b" "p1" "" ∧
    transactionsListDispatch "b" ⟨"2024-01-02", "unapproved", "", "", ""⟩ =
      .unscoped "b" ⟨"2024-01-02", "unapproved", "", "", ""⟩ ∧
    (transactionsListDispatch "b" ⟨"2024-01-02", "unapproved", "", "", ""⟩).path =
      "/budgets/b/transactions?since_date=2024-01-02&type=unapproved" := by
  have h1 := transactionsList_dispatch_priority "b" ⟨"2024-01-02", "unapproved", "a1", "c1", "p1"⟩
  have h2 := transactionsList_dispatch_priority "b" ⟨"", "", "", "c1", "p1"⟩
  have h3 := transactionsList_dispatch_priority "b" ⟨"", "", "", "", "p1"⟩
  have h4 := transactionsList_dispatch_priority "b" ⟨"2024-01-02", "unapproved", "", "", ""⟩
  obtain ⟨he, hp⟩ := h1.1 (by decide)
  refine ⟨he, ?_, h2.2.1 rfl (by decide), h3.2.2.1 rfl rfl (by decide),
    h4.2.2.2 rfl rfl rfl, ?_⟩
  · rw [hp]
    decide
  · rw [h4.2.2.2 rfl rfl rfl]
    decide

/-- C9 counterexample: a deleted account still receives a row in the
account list table — the account list view does not filter deleted
entries. -/
theorem printTable_accounts_show_deleted :
    printTable (.accounts [{ (default : Account) with deleted := true }]) =
      .table (.accountsT [{ (default : Account) with deleted := true }]) ∧
    ({ (default : Account) with deleted := true } : Account).deleted = true :=
  ⟨rfl, rfl⟩

/-- C9 amended: in table mode the category-group view keeps exactly the
categories that are neither hidden nor deleted inside groups that are
neither hidden nor deleted, and the transaction, payee,
scheduled-transaction and month list views keep exactly the non-deleted
entries — but the account list view renders every entry, deleted or not.
JSON mode emits the value verbatim without filtering, and a value shape
without a table layout falls back to JSON even in table mode. -/
theorem renderer_filtering :
    (∀ l : List CategoryGroup, printTable (.categoryGroups l) =
      .table (.categoryGroupsT
        ((l.filter (fun g => !(g.deleted || g.hidden))).flatMap (fun g =>
          (g.categories.filter (fun c => !(c.deleted || c.hidden))).map
            (fun c => (g.name, c)))))) ∧
    (∀ l : List Transaction, printTable (.transactions l) =
      .table (.transactionsT (l.filter (fun t => !t.deleted)))) ∧
    (∀ l : List Payee, printTable (.payees l) =
      .table (.payeesT (l.filter (fun p => !p.deleted)))) ∧
    (∀ l : List ScheduledTransaction, printTable (.scheduleds l) =
      .table (.scheduledsT (l.filter (fun st => !st.deleted)))) ∧
    (∀ l : List Month, printTable (.months l) =
      .table (.monthsT (l.filter (fun m => !m.deleted)))) ∧
    (∀ l : List Account, printTable (.accounts l) = .table (.accountsT l)) ∧
    (∀ j : Json, printTable (.other j) = .json (.other j)) ∧
    (∀ v : RenderValue, Print "json" v = .json v) := by
  refine ⟨?_, ?_, ?_, ?_, ?_, ?_, ?_, ?_⟩
  · intro l
    simp [printTable, categoryGroupRows_eq_filter]
  · intro l
    simp [printTable, transactionRows_eq_filter]
  · intro l
    simp [printTable, payeeRows_eq_filter]
  · intro l
    simp [printTable, scheduledRows_eq_filter]
  · intro l
    simp [printTable, monthRows_eq_filter]
  · intro l
    rfl
  · intro j
    rfl
  · intro v
    rfl

/-- C6 counterexample: at the hundredth-expressible amount `2.01`, the
conversion of its binary64 value yields `2009` milliunits (the rounded
product lies just below `2010`), and the round trip lands a full
thousandth below `2.01` — far outside floating-point tolerance. -/
theorem milliunits_roundtrip_fails_at_201_hundredths :
    AmountToMilliunits (fpRound64 ⟨201, 100⟩) = 2009 ∧
    (201 : ℚ) / 100 -
      (MilliunitsToAmount (AmountToMilliunits (fpRound64 ⟨201, 100⟩))).toRat > 1 / 1001 := by
  have hm : AmountToMilliunits (fpRound64 ⟨201, 100⟩) = 2009 := by decide
  have hs : MilliunitsToAmount 2009 = ⟨4523865825693663, 2251799813685248⟩ := by decide
  refine ⟨hm, ?_⟩
  rw [hm, hs]
  unfold Frac.toRat
  norm_num

/-- C6 amended: the two conversions are inverse on every amount for which
no floating-point step rounds: if the binary64 product `amount * 1000`
equals the exact product and is an integer `m`, and the binary64 quotient
of converting `m` back equals the exact `m / 1000`, then the round trip
returns the amount exactly (this holds, e.g., for all multiples of `0.25`
in range, but fails for general hundredths such as `2.01`). -/
theorem milliunits_roundtrip_exact (a : Frac) (m : Int)
    (h1 : (fpRound64 (a.mulInt 1000)).toRat = a.toRat * 1000)
    (h2 : a.toRat * 1000 = (m : ℚ))
    (h3 : (fpRound64 ((fpRound64 ⟨m, 1⟩).divNat 1000)).toRat = (m : ℚ) / 1000) :
    AmountToMilliunits a = m ∧
    (MilliunitsToAmount (AmountToMilliunits a)).toRat = a.toRat := by
  have hAm : AmountToMilliunits a = m := by
    unfold AmountToMilliunits
    exact fracTrunc_eq_of_toRat_int _ m (by rw [h1, h2])
  refine ⟨hAm, ?_⟩
  rw [hAm]
  unfold MilliunitsToAmount
  rw [h3, ← h2]
  exact mul_div_cancel_right₀ a.toRat (by norm_num)

/-- C6 amended, witness at the amount `2.25`: the product is the exact
integer `2250` and the round trip returns `2.25` exactly. -/
theorem milliunits_roundtrip_exact_witness :
    AmountToMilliunits ⟨9, 4⟩ = 2250 ∧
    (MilliunitsToAmount (AmountToMilliunits ⟨9, 4⟩)).toRat = (⟨9, 4⟩ : Frac).toRat := by
  have h := milliunits_roundtrip_exact ⟨9, 4⟩ 2250 ?h1 ?h2 ?h3
  case h1 =>
    rw [show fpRound64 ((⟨9, 4⟩ : Frac).mulInt 1000) =
        ⟨4947802324992000, 2199023255552⟩ from by decide]
    unfold Frac.toRat
    norm_num
  case h2 =>
    unfold Frac.toRat
    norm_num
  case h3 =>
    rw [show fpRound64 ((fpRound64 ⟨(2250 : Int), 1⟩).divNat 1000) =
        ⟨5066549580791808, 2251799813685248⟩ from by decide]
    unfold Frac.toRat
    norm_num
  exact h

end Ynab
